import Mathlib

/-!
Verification of the two rendering scripts of the gold-umbrella-roundtable
repository (`src/app.js`, `src/archive.js`) against their specification.

The scripts are embedded shallowly:

* `JVal` models the JavaScript values a `JSON.parse` call can produce
  (plus `undefined`, the result of reading an absent property).
* `renderReportBody` / `reportView` embed the try/catch body of the
  ReportView IIFE of `src/app.js`, threading the seven display regions
  (`Display`) explicitly and modelling a thrown `TypeError` as the
  `Except.error` case carrying the display state at the throw point.
* A typed layer (`ReportDocument` and friends) models the document schema
  of §3 of the spec; `ReportDocument.toJVal` injects it into the `JVal`
  world, and a bridge theorem computes the full success-path display for
  every such document.
* `archiveView` embeds `src/archive.js` over schema-conforming indexes.
-/

namespace Roundtable

/-- JavaScript values reachable in the scripts: everything `JSON.parse`
can return, plus `undefined` (the result of reading an absent property).
Numbers are modelled as integers: every numeric literal involved in the
claims is integral. -/
inductive JVal where
  | undefined : JVal
  | null : JVal
  | bool : Bool → JVal
  | num : Int → JVal
  | str : String → JVal
  | arr : List JVal → JVal
  | obj : List (String × JVal) → JVal

/-- `v` is `null` or `undefined`: property access on it throws a
`TypeError`, and both `?.` and `??` trigger on exactly these values. -/
def JVal.isNullish : JVal → Bool
  | .undefined => true
  | .null => true
  | _ => false

/-- JavaScript truthiness: `undefined`, `null`, `false`, `0` and `""` are
falsy; every other value (including empty arrays and objects) is truthy. -/
def JVal.truthy : JVal → Bool
  | .undefined => false
  | .null => false
  | .bool b => b
  | .num n => n != 0
  | .str s => s != ""
  | .arr _ => true
  | .obj _ => true

/-- Property read `v.k` on a receiver that is known not to be nullish:
on an object, the named field (or `undefined` when absent); on a boxed
primitive or an array, none of the field names used by the scripts exist,
so the read yields `undefined`.  The throwing case (nullish receiver) is
handled explicitly at each access site of the embedding. -/
def JVal.getTotal : JVal → String → JVal
  | .obj fs, k => (fs.lookup k).getD .undefined
  | _, _ => .undefined

/-- The `??` operator: `v ?? w` is `w` when `v` is nullish, else `v`. -/
def nullishOr (v w : JVal) : JVal :=
  if v.isNullish then w else v

mutual

/-- JavaScript string conversion (`String(v)`, template-literal
interpolation, and the implicit conversion of `textContent` assignment):
arrays stringify as their elements joined with `","` (with nullish
elements contributing `""`), plain objects as `"[object Object]"`. -/
def jstr : JVal → String
  | .undefined => "undefined"
  | .null => "null"
  | .bool b => if b then "true" else "false"
  | .num n => toString n
  | .str s => s
  | .arr xs => String.intercalate "," (jstrElems xs)
  | .obj _ => "[object Object]"

/-- Element-wise conversion used both by `Array.prototype.toString` and by
`Array.prototype.join`: nullish elements contribute the empty string. -/
def jstrElems : List JVal → List String
  | [] => []
  | v :: vs => (if v.isNullish then "" else jstr v) :: jstrElems vs

end

/-- `String.prototype.padStart(3, "0")`: strings of length at least 3 are
returned unchanged, shorter ones are prefixed with `'0'`s up to length 3. -/
def padStart3 (s : String) : String :=
  if s.length ≥ 3 then s else String.mk (List.replicate (3 - s.length) '0') ++ s

/-- `String.prototype.trim`: strip leading and trailing whitespace,
implemented structurally over the character list. -/
def jsTrim (s : String) : String :=
  ⟨((s.data.dropWhile Char.isWhitespace).reverse.dropWhile Char.isWhitespace).reverse⟩

/-- `v.join(sep)`: defined exactly on arrays (`Array.prototype.join`);
on every other receiver reached by line 29 of `src/app.js` the call
throws a `TypeError`, modelled as `none`. -/
def joinArr : JVal → String → Option String
  | .arr xs, sep => some (String.intercalate sep (jstrElems xs))
  | _, _ => none

/-- An HTML anchor as the scripts serialize it into `innerHTML`. -/
def htmlLink (target label : String) : String :=
  "<a href=\"" ++ target ++ "\">" ++ label ++ "</a>"

/-- The seven display regions written by `src/app.js`
(`status`, `day`, `diagnosis`, `agon`, `mandate`, `artifact`, `build`),
each holding the text/markup last assigned to it. -/
structure Display where
  status : String
  day : String
  diagnosis : String
  agon : String
  mandate : String
  artifact : String
  build : String
deriving DecidableEq

/-- The fixed status message of the catch handler of `src/app.js`. -/
def unavailableMsg : String := "Report unavailable right now."

/-- The catch handler of `src/app.js` (lines 42–48): sets the status
message and clears diagnosis, agon, mandate and artifact; the day and
build regions are not touched by it. -/
def applyCatch (d : Display) : Display :=
  { d with status := unavailableMsg, diagnosis := "", agon := "", mandate := "", artifact := "" }

/-- The try body of `src/app.js` after a successful `r.json()` (lines
15–41), over the parsed value `j` and the display state `d0`.  Every
property access in the body is a read on `j`; such a read throws exactly
when `j` is nullish, and the first one occurs in the day-label template
(line 16), after the status region has been cleared (line 15), so the
nullish check is performed once there.  The later `.join("; ")` call
(line 29) throws when `m.constraints || []` evaluates to a truthy
non-array.  A throw is `Except.error` carrying the display state at the
throw point.  The two conditional writes (artifact if/else, lines 35–39,
both branches of which assign the artifact region; guarded build write,
line 41) are modelled as conditional values of the written region. -/
def renderReportBody (j : JVal) (d0 : Display) : Except Display Display :=
  let d1 : Display := { d0 with status := "" }
  if j.isNullish then .error d1 else
  let dayS : String :=
    "DAY " ++ padStart3 (jstr (nullishOr (j.getTotal "day_number") (.str ""))) ++ " — " ++
      jstr (nullishOr (j.getTotal "date") (.str ""))
  let d2 : Display := { d1 with day := dayS }
  let d3 : Display := { d2 with diagnosis := jstr (nullishOr (j.getTotal "diagnosis") (.str "")) }
  let ag : JVal := j.getTotal "agon"
  let agS : JVal := if ag.isNullish then .undefined else ag.getTotal "summary"
  let agW : JVal := if ag.isNullish then .undefined else ag.getTotal "winner"
  let agonS : String :=
    jsTrim ((if agS.truthy then jstr agS ++ "\n\n" else "") ++
      (if agW.truthy then "Winner: " ++ jstr agW else ""))
  let d4 : Display := { d3 with agon := agonS }
  let mv : JVal := j.getTotal "mandate"
  let m : JVal := if mv.truthy then mv else .obj []
  let cv : JVal := m.getTotal "constraints"
  match joinArr (if cv.truthy then cv else .arr []) "; " with
  | none => .error d4
  | some cj =>
    let lines : List String :=
      [jsTrim ("Compose: " ++ jstr (nullishOr (m.getTotal "medium") (.str ""))),
        jsTrim ("Emotional axis: " ++ jstr (nullishOr (m.getTotal "emotional_axis") (.str ""))),
        jsTrim ("Constraint(s): " ++ cj),
        jsTrim ("Timebox: " ++ jstr (nullishOr (m.getTotal "timebox_hours") (.num 8)) ++ " hours"),
        jsTrim ("Deliverable: " ++ jstr (nullishOr (m.getTotal "deliverable") (.str "")))]
    let d5 : Display := { d4 with mandate := String.intercalate "\n" (lines.filter (fun l => l != "")) }
    let av : JVal := j.getTotal "artifact"
    let stV : JVal := if av.isNullish then .undefined else av.getTotal "status"
    let urlV : JVal := if av.isNullish then .undefined else av.getTotal "url"
    let d6 : Display :=
      { d5 with artifact :=
          if (match stV with | .str s => s == "DONE" | _ => false) && urlV.truthy then
            "DONE — " ++ htmlLink (jstr urlV) "Open"
          else "PENDING" }
    let ev : JVal := j.getTotal "engine"
    let verV : JVal := if ev.isNullish then .undefined else ev.getTotal "version"
    .ok { d6 with build := if verV.truthy then "ENGINE v" ++ jstr verV else d6.build }

/-- The whole ReportView IIFE of `src/app.js` as a function of the load
outcome and the initial display state.  `res` is `Except.error` on a
network error, a non-success HTTP status or a `r.json()` parse failure —
all of which occur before any display write — and `Except.ok j` when the
body runs on the parsed value `j`.  Every failure ends in the catch
handler; the function is total, so no exception escapes the view. -/
def reportView (res : Except String JVal) (d0 : Display) : Display :=
  match res with
  | .error _ => applyCatch d0
  | .ok j =>
    match renderReportBody j d0 with
    | .ok d => d
    | .error dm => applyCatch dm

/-- Typed view of the optional `agon` object of §3 of the spec.  Per the
§3 invariant ("absence … resolves to an empty string"), an absent
free-text field is identified with the empty string; the script
distinguishes presence by truthiness, which for strings coincides with
non-emptiness. -/
structure Agon where
  summary : String := ""
  winner : String := ""
deriving DecidableEq

/-- Typed view of the optional `mandate` object of §3 of the spec. -/
structure Mandate where
  medium : String := ""
  emotional_axis : String := ""
  constraints : List String := []
  timebox_hours : Option Int := none
  deliverable : String := ""
deriving DecidableEq

/-- Typed view of the optional `artifact` object of §3 of the spec. -/
structure Artifact where
  status : String := ""
  url : String := ""
deriving DecidableEq

/-- Typed view of the optional `engine` object of §3 of the spec. -/
structure Engine where
  version : String := ""
deriving DecidableEq

/-- A schema-conforming report document (§3 of the spec): every field
optional, free-text absence identified with the empty string. -/
structure ReportDocument where
  day_number : Option Int := none
  date : String := ""
  diagnosis : String := ""
  agon : Option Agon := none
  mandate : Option Mandate := none
  artifact : Option Artifact := none
  engine : Option Engine := none
deriving DecidableEq

/-- Absent numeric fields are encoded as JSON `null` (which triggers
`??` exactly as an omitted key would). -/
def encOptInt : Option Int → JVal
  | none => .null
  | some n => .num n

/-- JSON encoding of a typed `agon` object. -/
def Agon.toJVal (a : Agon) : JVal :=
  .obj [("summary", .str a.summary), ("winner", .str a.winner)]

/-- JSON encoding of a typed `mandate` object. -/
def Mandate.toJVal (m : Mandate) : JVal :=
  .obj [("medium", .str m.medium), ("emotional_axis", .str m.emotional_axis),
    ("constraints", .arr (m.constraints.map .str)), ("timebox_hours", encOptInt m.timebox_hours),
    ("deliverable", .str m.deliverable)]

/-- JSON encoding of a typed `artifact` object. -/
def Artifact.toJVal (a : Artifact) : JVal :=
  .obj [("status", .str a.status), ("url", .str a.url)]

/-- JSON encoding of a typed `engine` object. -/
def Engine.toJVal (e : Engine) : JVal :=
  .obj [("version", .str e.version)]

/-- JSON encoding of a schema-conforming report document.  Absent nested
objects are encoded as `null`: for every access pattern in the script
(`?.` chains, `??`, `||`, truthiness) `null` behaves exactly like an
omitted key. -/
def ReportDocument.toJVal (doc : ReportDocument) : JVal :=
  .obj [("day_number", encOptInt doc.day_number),
    ("date", .str doc.date),
    ("diagnosis", .str doc.diagnosis),
    ("agon", (doc.agon.map Agon.toJVal).getD .null),
    ("mandate", (doc.mandate.map Mandate.toJVal).getD .null),
    ("artifact", (doc.artifact.map Artifact.toJVal).getD .null),
    ("engine", (doc.engine.map Engine.toJVal).getD .null)]

/-- `String(j.day_number ?? "")` on a schema-conforming document:
decimal spelling when present, the empty string when absent. -/
def optIntToJS : Option Int → String
  | none => ""
  | some n => toString n

/-- Line 16 of `src/app.js`: the day-label template. -/
def dayLabel (doc : ReportDocument) : String :=
  "DAY " ++ padStart3 (optIntToJS doc.day_number) ++ " — " ++ doc.date

/-- Line 18 of `src/app.js`: the diagnosis region (`j.diagnosis ?? ""`). -/
def diagnosisText (doc : ReportDocument) : String := doc.diagnosis

/-- Lines 20–23 of `src/app.js`: the agon region. -/
def agonText (doc : ReportDocument) : String :=
  let s := (doc.agon.map Agon.summary).getD ""
  let w := (doc.agon.map Agon.winner).getD ""
  jsTrim ((if s != "" then s ++ "\n\n" else "") ++ (if w != "" then "Winner: " ++ w else ""))

/-- Lines 25–33 of `src/app.js`: the mandate region. -/
def mandateText (doc : ReportDocument) : String :=
  let m := doc.mandate.getD {}
  let lines : List String :=
    [jsTrim ("Compose: " ++ m.medium),
      jsTrim ("Emotional axis: " ++ m.emotional_axis),
      jsTrim ("Constraint(s): " ++ String.intercalate "; " m.constraints),
      jsTrim ("Timebox: " ++ toString (m.timebox_hours.getD 8) ++ " hours"),
      jsTrim ("Deliverable: " ++ m.deliverable)]
  String.intercalate "\n" (lines.filter (fun l => l != ""))

/-- Lines 35–39 of `src/app.js`: the artifact region. -/
def artifactText (doc : ReportDocument) : String :=
  match doc.artifact with
  | some a =>
    if a.status == "DONE" && a.url != "" then "DONE — " ++ htmlLink a.url "Open"
    else "PENDING"
  | none => "PENDING"

/-- Line 41 of `src/app.js`: the build region, given its prior content. -/
def buildText (doc : ReportDocument) (prev : String) : String :=
  match doc.engine with
  | some e => if e.version != "" then "ENGINE v" ++ e.version else prev
  | none => prev

/-- The display state after a successful render of a schema-conforming
document: status cleared, the five content regions derived field-wise,
the build region per `buildText`. -/
def successDisplay (doc : ReportDocument) (d0 : Display) : Display :=
  { status := "", day := dayLabel doc, diagnosis := diagnosisText doc, agon := agonText doc,
    mandate := mandateText doc, artifact := artifactText doc, build := buildText doc d0.build }

/-- The day-label formula exactly as the claim states it: day_number
zero-padded to width 3 when present, the empty string when absent. -/
def dayLabelClaimed (doc : ReportDocument) : String :=
  "DAY " ++ (match doc.day_number with | some n => padStart3 (toString n) | none => "") ++
    " — " ++ doc.date

/-- The amended day-label formula: the zero-padding is applied to the
empty string as well, so an absent day_number contributes `"000"`. -/
def dayLabelAmended (doc : ReportDocument) : String :=
  "DAY " ++ (match doc.day_number with | some n => padStart3 (toString n) | none => "000") ++
    " — " ++ doc.date

/-- The agon formula as the spec states it: the summary followed by two
newlines when a summary is present, then `"Winner: "` and the winner when
a winner is present, each part independently optional, the whole
trimmed.  Presence of a free-text field means a non-empty value (§3). -/
def agonSpec (doc : ReportDocument) : String :=
  let s := (doc.agon.map Agon.summary).getD ""
  let w := (doc.agon.map Agon.winner).getD ""
  jsTrim ((if s ≠ "" then s ++ "\n\n" else "") ++ (if w ≠ "" then "Winner: " ++ w else ""))

/-- The five mandate lines in the fixed order of the spec, before
trimming: Compose, Emotional axis, Constraint(s) (joined with `"; "`),
Timebox (default 8), Deliverable. -/
def mandateLinesSpec (m : Mandate) : List String :=
  ["Compose: " ++ m.medium,
    "Emotional axis: " ++ m.emotional_axis,
    "Constraint(s): " ++ String.intercalate "; " m.constraints,
    "Timebox: " ++ toString (m.timebox_hours.getD 8) ++ " hours",
    "Deliverable: " ++ m.deliverable]

/-- The mandate block as the spec states it: each line trimmed, each
omitted entirely when empty, the remaining lines joined with newlines. -/
def mandateSpec (doc : ReportDocument) : String :=
  String.intercalate "\n"
    (((mandateLinesSpec (doc.mandate.getD {})).map jsTrim).filter (fun l => l != ""))

/-- The artifact rendering as the claim states it: `"DONE — "` followed
by a link to the url labelled `"Open"` when the status is exactly
`"DONE"` and a url is present, and the literal `"PENDING"` otherwise. -/
def artifactSpec (doc : ReportDocument) : String :=
  match doc.artifact with
  | some a =>
    if a.status = "DONE" ∧ a.url ≠ "" then "DONE — " ++ htmlLink a.url "Open" else "PENDING"
  | none => "PENDING"

/-- `j.engine?.version` as evaluated by line 41 of `src/app.js`. -/
def engineVersionOf (j : JVal) : JVal :=
  let ev := if j.isNullish then JVal.undefined else j.getTotal "engine"
  if ev.isNullish then .undefined else ev.getTotal "version"

/-- The build-label outcome as the claim states it: `"ENGINE v"` and the
version exactly when the render succeeded with a truthy `engine.version`;
the prior content in every other outcome. -/
def buildOutcome (res : Except String JVal) (d0 : Display) : String :=
  match res with
  | .error _ => d0.build
  | .ok j =>
    match renderReportBody j d0 with
    | .error _ => d0.build
    | .ok _ => if (engineVersionOf j).truthy then "ENGINE v" ++ jstr (engineVersionOf j) else d0.build

/-- A well-formed JSON response outside the §3 schema:
`mandate.constraints` is a number, so the `.join("; ")` call of line 29
throws mid-render, after the day label has already been written. -/
def badConstraintsJson : JVal :=
  .obj [("day_number", .num 3), ("mandate", .obj [("constraints", .num 1)])]

/-- A schema-conforming archive index (comment on line 8 of
`src/archive.js` and §3 of the spec): an optional ordered sequence of ISO
date strings; `none` models an absent `dates` key (`j.dates || []`
treats it as empty). -/
structure ArchiveIndex where
  dates : Option (List String) := none
deriving DecidableEq

/-- Line 11 of `src/archive.js`: the link target built from a date
string: `reports/` + `d.slice(0,4)` + `/` + `d.slice(5,7)` + `/` + `d`
+ `.json`. -/
def archiveHref (d : String) : String :=
  "reports/" ++ d.take 4 ++ "/" ++ (d.drop 5).take 2 ++ "/" ++ d ++ ".json"

/-- Line 12 of `src/archive.js`: one archive entry, a block-level element
holding a link whose target is `archiveHref d` and whose label is `d`. -/
def archiveEntryHTML (d : String) : String :=
  "<div>" ++ htmlLink (archiveHref d) d ++ "</div>"

/-- Lexicographic comparison of character lists: the order in which
`Array.prototype.sort()` without a comparator compares strings
(code unit by code unit, shorter prefix first). -/
def lexLe : List Char → List Char → Bool
  | [], _ => true
  | _ :: _, [] => false
  | a :: as, b :: bs => if a = b then lexLe as bs else decide (a < b)

/-- Lexicographic string order, the sort order of `Array.prototype.sort()`
on an array of strings. -/
def jsLe (a b : String) : Prop := lexLe a.data b.data = true

instance jsLe.decidableRel : DecidableRel jsLe := fun a b =>
  instDecidableEqBool (lexLe a.data b.data) true

/-- Line 9 of `src/archive.js`: `(j.dates || []).slice().sort().reverse()`.
`Array.prototype.sort()` without a comparator sorts an array of strings
lexicographically ascending; on a list of strings every sorting algorithm
yields the same sorted list (equal elements are identical strings), so it
is modelled by insertion sort, followed by `reverse`. -/
def archiveOrder (dates : List String) : List String :=
  (List.insertionSort jsLe dates).reverse

/-- Lines 9–13 of `src/archive.js`: the `innerHTML` of the list region on
success: the entry markup of the ordered dates joined with `""`. -/
def archiveListHTML (idx : ArchiveIndex) : String :=
  String.join ((archiveOrder (idx.dates.getD [])).map archiveEntryHTML)

/-- The fixed message of the catch handler of `src/archive.js`. -/
def archiveUnavailableMsg : String := "Archive unavailable."

/-- The ArchiveView IIFE of `src/archive.js`: `res` is `Except.error` on
a network error, non-success status or parse failure; on success the
list region is the rendered, ordered entries. -/
def archiveView (res : Except String ArchiveIndex) : String :=
  match res with
  | .error _ => archiveUnavailableMsg
  | .ok idx => archiveListHTML idx

theorem toJVal_not_nullish (doc : ReportDocument) :
    doc.toJVal.isNullish = false := rfl

theorem toJVal_get_day_number (doc : ReportDocument) :
    doc.toJVal.getTotal "day_number" = encOptInt doc.day_number := rfl

theorem toJVal_get_date (doc : ReportDocument) :
    doc.toJVal.getTotal "date" = .str doc.date := rfl

theorem toJVal_get_diagnosis (doc : ReportDocument) :
    doc.toJVal.getTotal "diagnosis" = .str doc.diagnosis := rfl

theorem toJVal_get_agon (doc : ReportDocument) :
    doc.toJVal.getTotal "agon" = (doc.agon.map Agon.toJVal).getD .null := rfl

theorem toJVal_get_mandate (doc : ReportDocument) :
    doc.toJVal.getTotal "mandate" = (doc.mandate.map Mandate.toJVal).getD .null := rfl

theorem toJVal_get_artifact (doc : ReportDocument) :
    doc.toJVal.getTotal "artifact" = (doc.artifact.map Artifact.toJVal).getD .null := rfl

theorem toJVal_get_engine (doc : ReportDocument) :
    doc.toJVal.getTotal "engine" = (doc.engine.map Engine.toJVal).getD .null := rfl

theorem agon_get_summary (a : Agon) : a.toJVal.getTotal "summary" = .str a.summary := rfl

theorem agon_get_winner (a : Agon) : a.toJVal.getTotal "winner" = .str a.winner := rfl

theorem agon_not_nullish (a : Agon) : a.toJVal.isNullish = false := rfl

theorem mandate_truthy (m : Mandate) : m.toJVal.truthy = true := rfl

theorem mandate_get_medium (m : Mandate) : m.toJVal.getTotal "medium" = .str m.medium := rfl

theorem mandate_get_emotional_axis (m : Mandate) :
    m.toJVal.getTotal "emotional_axis" = .str m.emotional_axis := rfl

theorem mandate_get_constraints (m : Mandate) :
    m.toJVal.getTotal "constraints" = .arr (m.constraints.map .str) := rfl

theorem mandate_get_timebox_hours (m : Mandate) :
    m.toJVal.getTotal "timebox_hours" = encOptInt m.timebox_hours := rfl

theorem mandate_get_deliverable (m : Mandate) :
    m.toJVal.getTotal "deliverable" = .str m.deliverable := rfl

theorem artifact_get_status (a : Artifact) : a.toJVal.getTotal "status" = .str a.status := rfl

theorem artifact_get_url (a : Artifact) : a.toJVal.getTotal "url" = .str a.url := rfl

theorem artifact_not_nullish (a : Artifact) : a.toJVal.isNullish = false := rfl

theorem engine_get_version (e : Engine) : e.toJVal.getTotal "version" = .str e.version := rfl

theorem engine_not_nullish (e : Engine) : e.toJVal.isNullish = false := rfl

theorem jstr_nullishOr_str (o : Option Int) :
    jstr (nullishOr (encOptInt o) (.str "")) = optIntToJS o := by
  cases o <;> rfl

theorem jstr_nullishOr_num (o : Option Int) (k : Int) :
    jstr (nullishOr (encOptInt o) (.num k)) = toString (o.getD k) := by
  cases o <;> rfl

theorem jstrElems_map_str (cs : List String) : jstrElems (cs.map .str) = cs := by
  induction cs with
  | nil => rfl
  | cons c cs ih => simp [jstrElems, jstr, JVal.isNullish, ih]

theorem getTotal_emptyObj (k : String) : (JVal.obj []).getTotal k = .undefined := rfl

theorem isNullish_undefined : JVal.undefined.isNullish = true := rfl

theorem isNullish_null : JVal.null.isNullish = true := rfl

theorem isNullish_str (s : String) : (JVal.str s).isNullish = false := rfl

theorem truthy_undefined : JVal.undefined.truthy = false := rfl

theorem truthy_null : JVal.null.truthy = false := rfl

theorem truthy_str (s : String) : (JVal.str s).truthy = (s != "") := rfl

theorem truthy_arr (xs : List JVal) : (JVal.arr xs).truthy = true := rfl

theorem jstr_str (s : String) : jstr (.str s) = s := rfl

theorem jstr_num (n : Int) : jstr (.num n) = toString n := rfl

theorem jstrElems_nil : jstrElems [] = [] := rfl

theorem nullishOr_undefined (w : JVal) : nullishOr .undefined w = w := rfl

theorem nullishOr_null (w : JVal) : nullishOr .null w = w := rfl

theorem nullishOr_str (s : String) (w : JVal) : nullishOr (.str s) w = .str s := rfl

/-- The success path of the ReportView body: on a schema-conforming
document (encoded into JSON), the body never throws and writes exactly
the field-wise display strings of the typed layer. -/
theorem renderReportBody_toJVal (doc : ReportDocument) (d0 : Display) :
    renderReportBody doc.toJVal d0 = Except.ok (successDisplay doc d0) := by
  obtain ⟨dn, dt, dg, ago, man, art, eng⟩ := doc
  cases ago <;> cases man <;> cases art <;> cases eng <;>
    simp [renderReportBody, successDisplay, toJVal_not_nullish, toJVal_get_day_number,
      toJVal_get_date, toJVal_get_diagnosis, toJVal_get_agon, toJVal_get_mandate,
      toJVal_get_artifact, toJVal_get_engine, agon_get_summary, agon_get_winner,
      agon_not_nullish, mandate_truthy, mandate_get_medium, mandate_get_emotional_axis,
      mandate_get_constraints, mandate_get_timebox_hours, mandate_get_deliverable,
      artifact_get_status, artifact_get_url, artifact_not_nullish, engine_get_version,
      engine_not_nullish, jstr_nullishOr_str, jstr_nullishOr_num, jstrElems_map_str,
      getTotal_emptyObj, isNullish_undefined, isNullish_null, isNullish_str, truthy_undefined,
      truthy_null, truthy_str, truthy_arr, jstr_str, jstr_num, jstrElems_nil,
      nullishOr_undefined, nullishOr_null, nullishOr_str, joinArr,
      dayLabel, diagnosisText, agonText, mandateText, artifactText, buildText,
      Display.mk.injEq]

/-- The whole ReportView on an encoded schema-conforming document:
the success path, writing the typed field-wise display. -/
theorem reportView_toJVal (doc : ReportDocument) (d0 : Display) :
    reportView (Except.ok doc.toJVal) d0 = successDisplay doc d0 := by
  simp [reportView, renderReportBody_toJVal]

/-- No statement of the body before its last writes the build region, so
a throw always carries the initial build content. -/
theorem renderReportBody_error_build (j : JVal) (d0 dm : Display)
    (h : renderReportBody j d0 = Except.error dm) : dm.build = d0.build := by
  simp only [renderReportBody] at h
  split at h
  · injection h with h
    subst h
    rfl
  · split at h
    · injection h with h
      subst h
      rfl
    · exact absurd h (by simp)

/-- A successful body run leaves the build region unchanged unless
`j.engine?.version` is truthy, in which case it writes the version label. -/
theorem renderReportBody_ok_build (j : JVal) (d0 d : Display)
    (h : renderReportBody j d0 = Except.ok d) :
    d.build =
      if (engineVersionOf j).truthy then "ENGINE v" ++ jstr (engineVersionOf j) else d0.build := by
  simp only [renderReportBody] at h
  split at h
  · exact absurd h (by simp)
  · rename_i hn
    split at h
    · exact absurd h (by simp)
    · injection h with h
      subst h
      simp [engineVersionOf, hn]

theorem lexLe_total : ∀ as bs : List Char, lexLe as bs = true ∨ lexLe bs as = true := by
  intro as
  induction as with
  | nil => intro bs; left; rfl
  | cons a as ih =>
    intro bs
    cases bs with
    | nil => right; rfl
    | cons b bs =>
      by_cases hab : a = b
      · subst hab
        simpa [lexLe] using ih bs
      · rcases lt_trichotomy a b with h | h | h
        · left; simp [lexLe, hab, h]
        · exact absurd h hab
        · right; simp [lexLe, Ne.symm hab, h]

theorem lexLe_trans :
    ∀ as bs cs : List Char, lexLe as bs = true → lexLe bs cs = true → lexLe as cs = true := by
  intro as
  induction as with
  | nil => intro bs cs _ _; rfl
  | cons a as ih =>
    intro bs cs h1 h2
    cases bs with
    | nil => simp [lexLe] at h1
    | cons b bs =>
      cases cs with
      | nil => simp [lexLe] at h2
      | cons c cs =>
        by_cases hab : a = b <;> by_cases hbc : b = c
        · subst hab; subst hbc
          simp only [lexLe, if_pos rfl] at h1 h2 ⊢
          exact ih bs cs h1 h2
        · subst hab
          simp only [lexLe, if_pos rfl] at h1
          simp only [lexLe, if_neg hbc, decide_eq_true_eq] at h2
          simp [lexLe, hbc, h2]
        · subst hbc
          simp only [lexLe, if_neg hab, decide_eq_true_eq] at h1
          simp [lexLe, hab, h1]
        · simp only [lexLe, if_neg hab, decide_eq_true_eq] at h1
          simp only [lexLe, if_neg hbc, decide_eq_true_eq] at h2
          have hac : a < c := lt_trans h1 h2
          simp [lexLe, ne_of_lt hac, hac]

/-- C1: every failing ReportView load (network error, non-success HTTP
status, or JSON parse error, all modelled as `Except.error`) sets the
status region to the fixed unavailable message, sets the diagnosis, agon,
mandate and artifact regions to the empty string, and leaves the build
label (and the day label) unchanged; `reportView` is a total function, so
no exception propagates out of the view. -/
theorem claim_C1 :
    unavailableMsg = "Report unavailable right now." ∧
    ∀ (e : String) (d0 : Display),
      reportView (Except.error e) d0 =
        { d0 with status := unavailableMsg, diagnosis := "", agon := "", mandate := "", artifact := "" } :=
  ⟨rfl, fun _ _ => rfl⟩

/-- C2 fails as stated: for a document with day_number absent and date
`"2026-02-08"`, the code renders `"DAY 000 — 2026-02-08"` (line 16 pads
the empty string to `"000"`), not the claimed `"DAY  — 2026-02-08"`. -/
theorem claim_C2_counterexample :
    (reportView (Except.ok (ReportDocument.toJVal { date := "2026-02-08" }))
        ⟨"", "", "", "", "", "", ""⟩).day ≠ dayLabelClaimed { date := "2026-02-08" } := by
  rw [reportView_toJVal]
  decide

/-- C2 (amended): the day-label region is set to `"DAY "`, then the
day_number zero-padded to width 3 when present and `"000"` when absent
(the empty string is itself zero-padded), then `" — "`, then the date
(empty when absent); for day_number 3 and date `"2026-02-08"` it equals
exactly `"DAY 003 — 2026-02-08"`. -/
theorem claim_C2 :
    (∀ (doc : ReportDocument) (d0 : Display),
        (reportView (Except.ok doc.toJVal) d0).day = dayLabelAmended doc) ∧
    ∀ d0 : Display,
      (reportView (Except.ok (ReportDocument.toJVal
          { day_number := some 3, date := "2026-02-08" })) d0).day = "DAY 003 — 2026-02-08" := by
  constructor
  · intro doc d0
    rw [reportView_toJVal]
    show dayLabel doc = dayLabelAmended doc
    obtain ⟨dn, dt, dg, ago, man, art, eng⟩ := doc
    cases dn with
    | none =>
      show "DAY " ++ padStart3 (optIntToJS none) ++ " — " ++ dt = "DAY " ++ "000" ++ " — " ++ dt
      rfl
    | some n => rfl
  · intro d0
    rw [reportView_toJVal]
    rfl

/-- C3: for every successfully parsed document, the artifact region is
`"DONE — "` followed by a link whose target is the url and whose label is
`"Open"` exactly when the status is `"DONE"` and a url is present, and the
literal `"PENDING"` in every other case; in particular for
`{status: "DONE", url: "x.html"}`, for `{status: "PENDING"}` and for an
absent artifact. -/
theorem claim_C3 :
    (∀ (doc : ReportDocument) (d0 : Display),
        (reportView (Except.ok doc.toJVal) d0).artifact = artifactSpec doc) ∧
    (∀ d0 : Display,
        (reportView (Except.ok (ReportDocument.toJVal
            { artifact := some { status := "DONE", url := "x.html" } })) d0).artifact =
          "DONE — " ++ htmlLink "x.html" "Open") ∧
    (∀ d0 : Display,
        (reportView (Except.ok (ReportDocument.toJVal
            { artifact := some { status := "PENDING" } })) d0).artifact = "PENDING") ∧
    ∀ d0 : Display,
      (reportView (Except.ok (ReportDocument.toJVal {})) d0).artifact = "PENDING" := by
  refine ⟨?_, ?_, ?_, ?_⟩
  · intro doc d0
    rw [reportView_toJVal]
    show artifactText doc = artifactSpec doc
    obtain ⟨dn, dt, dg, ago, man, art, eng⟩ := doc
    cases art with
    | none => rfl
    | some a =>
      by_cases h1 : a.status = "DONE" <;> by_cases h2 : a.url = "" <;>
        simp [artifactText, artifactSpec, h1, h2]
  · intro d0; rw [reportView_toJVal]; rfl
  · intro d0; rw [reportView_toJVal]; rfl
  · intro d0; rw [reportView_toJVal]; rfl

/-- C4: for every successfully parsed document, the mandate region is the
spec formula (five fixed-order lines, each trimmed, each omitted when
empty after substitution, joined with newlines, constraints joined with
`"; "`, timebox defaulting to 8); for constraints
`["no dialogue", "single shot"]` the block contains exactly the line
`Constraint(s): no dialogue; single shot`, and the absent timebox renders
`Timebox: 8 hours`. -/
theorem claim_C4 :
    (∀ (doc : ReportDocument) (d0 : Display),
        (reportView (Except.ok doc.toJVal) d0).mandate = mandateSpec doc) ∧
    ∀ d0 : Display,
      (reportView (Except.ok (ReportDocument.toJVal
          { mandate := some { constraints := ["no dialogue", "single shot"] } })) d0).mandate =
        "Compose:\nEmotional axis:\nConstraint(s): no dialogue; single shot\nTimebox: 8 hours\nDeliverable:" := by
  constructor
  · intro doc d0
    rw [reportView_toJVal]
    show mandateText doc = mandateSpec doc
    simp [mandateText, mandateSpec, mandateLinesSpec]
  · intro d0
    rw [reportView_toJVal]
    rfl

/-- C5: for every fetched archive index, the list region is one entry per
date, in the order of the dates sorted lexicographically ascending then
reversed (a descending-lexicographic permutation of the input), each
entry a link whose target is `reports/` + the first 4 characters + `/` +
characters 6–7 (1-indexed) + `/` + the date + `.json`, labelled with the
date itself; for `["2026-02-08", "2026-01-01"]` the order is 2026-02-08
then 2026-01-01, the first target being
`reports/2026/02/2026-02-08.json`. -/
theorem claim_C5 :
    (∀ idx : ArchiveIndex,
        archiveView (Except.ok idx) =
          String.join ((archiveOrder (idx.dates.getD [])).map archiveEntryHTML)) ∧
    (∀ dates : List String, (archiveOrder dates).Perm dates) ∧
    (∀ dates : List String, (archiveOrder dates).Pairwise (fun a b => jsLe b a)) ∧
    (∀ d : String,
        archiveEntryHTML d =
          "<div>" ++
            htmlLink ("reports/" ++ d.take 4 ++ "/" ++ (d.drop 5).take 2 ++ "/" ++ d ++ ".json")
              d ++ "</div>") ∧
    archiveOrder ["2026-02-08", "2026-01-01"] = ["2026-02-08", "2026-01-01"] ∧
    archiveHref "2026-02-08" = "reports/2026/02/2026-02-08.json" := by
  refine ⟨fun idx => rfl,
    fun dates => (List.reverse_perm _).trans (List.perm_insertionSort _ _),
    fun dates => ?_, fun d => rfl, by decide, by decide⟩
  haveI : IsTotal String jsLe := ⟨fun a b => lexLe_total a.data b.data⟩
  haveI : IsTrans String jsLe := ⟨fun a b c => lexLe_trans a.data b.data c.data⟩
  have h := List.sorted_insertionSort jsLe dates
  rw [archiveOrder, List.pairwise_reverse]
  exact h

/-- C6 fails as stated: for a response whose `mandate.constraints` is a
number, the `.join` call throws after the day label has been written
(`"DAY 003 — "`), and the catch handler does not clear the day region, so
the final display still holds the mid-cycle day label (not the empty
string and not the pre-load content `"D"`), although the load failed
(status shows the unavailable message). -/
theorem claim_C6_counterexample :
    renderReportBody badConstraintsJson ⟨"S", "D", "G", "A", "M", "R", "B"⟩ =
      Except.error ⟨"", "DAY 003 — ", "", "", "M", "R", "B"⟩ ∧
    (reportView (Except.ok badConstraintsJson) ⟨"S", "D", "G", "A", "M", "R", "B"⟩).status =
      unavailableMsg ∧
    (reportView (Except.ok badConstraintsJson) ⟨"S", "D", "G", "A", "M", "R", "B"⟩).day =
      "DAY 003 — " ∧
    ("DAY 003 — " : String) ≠ "" ∧
    ("DAY 003 — " : String) ≠ "D" :=
  ⟨rfl, rfl, rfl, by decide, by decide⟩

/-- C6 (amended): on every failed load, the view surfaces no
partial-success state in the status, diagnosis, agon, mandate and
artifact regions: the catch handler overwrites the status with the
unavailable message and clears the other four; the day region, however,
is not cleared, so a day label written earlier in the failed cycle is
left in place (the final display is the catch handler applied to the
state at the throw point, whose day field it preserves). -/
theorem claim_C6 :
    (∀ (e : String) (d0 : Display), reportView (Except.error e) d0 = applyCatch d0) ∧
    ∀ (j : JVal) (d0 dm : Display), renderReportBody j d0 = Except.error dm →
      reportView (Except.ok j) d0 = applyCatch dm ∧ (applyCatch dm).day = dm.day ∧
      (applyCatch dm).status = unavailableMsg ∧ (applyCatch dm).diagnosis = "" ∧
      (applyCatch dm).agon = "" ∧ (applyCatch dm).mandate = "" ∧
      (applyCatch dm).artifact = "" := by
  refine ⟨fun e d0 => rfl, fun j d0 dm h => ⟨?_, rfl, rfl, rfl, rfl, rfl, rfl⟩⟩
  simp [reportView, h]

/-- C6 witness: the amended statement at the concrete mid-render throw. -/
theorem claim_C6_witness :
    reportView (Except.ok badConstraintsJson) ⟨"S", "D", "G", "A", "M", "R", "B"⟩ =
      applyCatch ⟨"", "DAY 003 — ", "", "", "M", "R", "B"⟩ :=
  (claim_C6.2 badConstraintsJson ⟨"S", "D", "G", "A", "M", "R", "B"⟩
    ⟨"", "DAY 003 — ", "", "", "M", "R", "B"⟩ rfl).1

/-- C7: for every successfully parsed document, the agon region is the
trim of the summary followed by two newlines (when a summary is present)
concatenated with `"Winner: "` and the winner (when a winner is present),
the two parts independently optional; every presence combination renders
without error (the body returns a success value). -/
theorem claim_C7 :
    (∀ (doc : ReportDocument) (d0 : Display),
        (reportView (Except.ok doc.toJVal) d0).agon = agonSpec doc) ∧
    ∀ (doc : ReportDocument) (d0 : Display),
      ∃ d : Display, renderReportBody doc.toJVal d0 = Except.ok d := by
  constructor
  · intro doc d0
    rw [reportView_toJVal]
    show agonText doc = agonSpec doc
    obtain ⟨dn, dt, dg, ago, man, art, eng⟩ := doc
    cases ago with
    | none => rfl
    | some a =>
      by_cases hs : a.summary = "" <;> by_cases hw : a.winner = "" <;>
        simp [agonText, agonSpec, hs, hw]
  · intro doc d0
    exact ⟨successDisplay doc d0, renderReportBody_toJVal doc d0⟩

/-- C8: the build region is written only when the render succeeds with a
truthy `engine.version` (then it becomes `"ENGINE v"` + version); in
every other outcome — failure before or during the body, or success
without a version — it retains its prior content (`buildOutcome` states
exactly this frame condition); on typed documents the success-path value
is `buildText`. -/
theorem claim_C8 :
    (∀ (res : Except String JVal) (d0 : Display),
        (reportView res d0).build = buildOutcome res d0) ∧
    ∀ (doc : ReportDocument) (d0 : Display),
      (reportView (Except.ok doc.toJVal) d0).build = buildText doc d0.build := by
  constructor
  · intro res d0
    cases res with
    | error e => rfl
    | ok j =>
      cases hb : renderReportBody j d0 with
      | error dm =>
        simp only [reportView, buildOutcome, hb, applyCatch]
        exact renderReportBody_error_build j d0 dm hb
      | ok d =>
        simp only [reportView, buildOutcome, hb]
        exact renderReportBody_ok_build j d0 d hb
  · intro doc d0
    rw [reportView_toJVal]
    rfl

/-- C9: for an archive index whose dates are absent or empty, the list
region renders with zero entries (empty content), which is not the
failure-path message; `archiveView` is total, so no error is raised. -/
theorem claim_C9 :
    archiveView (Except.ok { dates := none }) = "" ∧
    archiveView (Except.ok { dates := some [] }) = "" ∧
    archiveUnavailableMsg ≠ "" :=
  ⟨rfl, rfl, by decide⟩

/-- C10: when the response parses to a value on which property access
throws (`null` or, hypothetically, `undefined` — the nullish values), the
view takes the failure path: the status region shows the unavailable
message and the diagnosis, agon, mandate and artifact regions are set to
the empty string; no defaults are rendered (day and build keep their
prior content). -/
theorem claim_C10 (j : JVal) (d0 : Display) (h : j.isNullish = true) :
    reportView (Except.ok j) d0 =
      { d0 with status := unavailableMsg, diagnosis := "", agon := "", mandate := "", artifact := "" } := by
  simp [reportView, renderReportBody, h, applyCatch]

/-- C10 witness: the JSON literal `null` at a concrete display state. -/
theorem claim_C10_witness :
    reportView (Except.ok JVal.null) ⟨"s0", "d0", "g0", "a0", "m0", "r0", "b0"⟩ =
      { status := unavailableMsg, day := "d0", diagnosis := "", agon := "", mandate := "",
        artifact := "", build := "b0" } :=
  claim_C10 JVal.null ⟨"s0", "d0", "g0", "a0", "m0", "r0", "b0"⟩ rfl

end Roundtable
